import Mathlib

/-!
Convert & Merge front end (`src/frontend/src/App.jsx`)

A shallow embedding of the workflow logic of the `App` component: the two
submit handlers `handleConvert` and `handleMerge`, the derived value
`imgBaseName`, the helper `downloadBlob`, and the event handlers wired to the
drop areas and buttons.

Modelling conventions

* A JavaScript string is a Lean `String`; the regular expression of
  `imgBaseName` works on its list of characters.
* The React state of `App` is the record `AppState`. A handler is a closure over
  the state of the render in which it was created, so every handler takes that
  state as an argument; it changes state only by calling setters.
* A handler run is a `Comp`: the sequence of observable actions it performed
  (setter calls, `alert`, `fetch`, `downloadBlob`, ...) together with how the
  run stands: completed, thrown, or suspended at an `await` whose promise has
  not settled.
* What the outside world answers during one run (the `fetch` promise, the body
  reads, `URL.createObjectURL`) is the argument `Env`.
* `import.meta.env.VITE_API_URL` is not part of the source file; it is the
  parameter `API`.
-/

namespace ImageConverter

/-! ## Data -/

/-- File object handed over by the drop zone: `name`, `size`, `type`. -/
structure FileHandle where
  name : String
  size : Nat
  type : String
deriving DecidableEq, Repr

/-- Binary payload of a response. -/
abbrev Blob := List Nat

/-- One value appended to a `FormData` body. -/
inductive FormValue
  | file (f : FileHandle)
  | text (s : String)
deriving DecidableEq, Repr

/-- Multipart body: the `(field, value)` pairs in the order of the `append` calls. -/
abbrev FormData := List (String × FormValue)

/-- Error object that is thrown or with which a promise rejects. -/
structure Thrown where
  name : String
  message : String
deriving DecidableEq, Repr

/-- Expression `new Error(message)`: the `name` comes from `Error.prototype`. -/
def newError (message : String) : Thrown := ⟨"Error", message⟩

/-- Expression `String(e)` for an error object, i.e. `Error.prototype.toString`:
the message alone when the name is empty, the name alone when the message is
empty, otherwise `name + ": " + message`. -/
def jsString (e : Thrown) : String :=
  if e.name = "" then e.message
  else if e.message = "" then e.name
  else e.name ++ ": " ++ e.message

/-- State of a promise at the moment it is awaited. -/
inductive Await (α : Type)
  | pending
  | rejected (e : Thrown)
  | fulfilled (a : α)

/-- Response of `fetch`: the status code and what `res.text()` and `res.blob()`
resolve to. -/
structure Response where
  status : Nat
  text : Await String
  blob : Await Blob

/-- Property `res.ok`: the status is in the range 200-299. -/
def Response.ok (r : Response) : Bool :=
  decide (200 ≤ r.status) && decide (r.status ≤ 299)

/-- What the outside world does during one run of a submit handler. -/
structure Env where
  fetch : Await Response
  createObjectURL : Except Thrown String

/-- React state of `App` (the eight `useState` cells). -/
structure AppState where
  imgFile : Option FileHandle
  outFmt : String
  quality : Nat
  imgBusy : Bool
  imgMsg : String
  pdfFiles : List FileHandle
  pdfBusy : Bool
  pdfMsg : String
deriving DecidableEq, Repr

/-- Initial state: the arguments of the `useState` calls. -/
def AppState.initial : AppState :=
  { imgFile := none, outFmt := "jpg", quality := 90, imgBusy := false, imgMsg := "",
    pdfFiles := [], pdfBusy := false, pdfMsg := "" }

/-- Observable action of a handler run. -/
inductive Action
  | setImgBusy (b : Bool)
  | setImgMsg (m : String)
  | setPdfBusy (b : Bool)
  | setPdfMsg (m : String)
  | alert (m : String)
  | fetch (url : String) (method : String) (body : FormData)
  | downloadBlob (blob : Blob) (filename : String)
  | createObjectURL (blob : Blob)
  | click (href : String) (download : String)
  | setTimeout (revokeHref : String) (delay : Nat)
deriving DecidableEq, Repr

/-! ## Handler runs -/

/-- How a run stands. -/
inductive Step (α : Type)
  | done (a : α)
  | threw (e : Thrown)
  | suspended
deriving DecidableEq, Repr

/-- A run: the actions performed so far and how it stands. -/
structure Comp (α : Type) where
  trace : List Action
  result : Step α

/-- Sequencing: the rest runs only after a normal completion. -/
def Comp.bind {α β : Type} (c : Comp α) (f : α → Comp β) : Comp β :=
  match c.result with
  | .done a => ⟨c.trace ++ (f a).trace, (f a).result⟩
  | .threw e => ⟨c.trace, .threw e⟩
  | .suspended => ⟨c.trace, .suspended⟩

instance : Monad Comp where
  pure a := ⟨[], .done a⟩
  bind := Comp.bind

/-- Perform one action. -/
def emit (a : Action) : Comp Unit := ⟨[a], .done ()⟩

/-- Statement `throw e`. -/
def throwJs {α : Type} (e : Thrown) : Comp α := ⟨[], .threw e⟩

/-- Expression `await p`. -/
def await {α : Type} : Await α → Comp α
  | .pending => ⟨[], .suspended⟩
  | .rejected e => ⟨[], .threw e⟩
  | .fulfilled a => ⟨[], .done a⟩

/-- Synchronous call that returns or throws. -/
def ofExcept {α : Type} : Except Thrown α → Comp α
  | .error e => ⟨[], .threw e⟩
  | .ok a => ⟨[], .done a⟩

/-- Block `try { body } catch (e) { handler }`. -/
def tryCatch {α : Type} (body : Comp α) (handler : Thrown → Comp α) : Comp α :=
  match body.result with
  | .threw e => ⟨body.trace ++ (handler e).trace, (handler e).result⟩
  | _ => body

/-- Block `try { body } finally { fin }`: `fin` runs after `body` completes or
throws; a completion of `fin` that is not normal replaces that of `body`. A
suspended `body` has not reached `fin`. -/
def tryFinally {α : Type} (body : Comp α) (fin : Comp Unit) : Comp α :=
  match body.result with
  | .suspended => body
  | r =>
    match fin.result with
    | .done _ => ⟨body.trace ++ fin.trace, r⟩
    | .threw e => ⟨body.trace ++ fin.trace, .threw e⟩
    | .suspended => ⟨body.trace ++ fin.trace, .suspended⟩

/-- Effect of one action on the React state: a setter stores its argument, every
other action leaves the state alone. -/
def applyAction (s : AppState) : Action → AppState
  | .setImgBusy b => { s with imgBusy := b }
  | .setImgMsg m => { s with imgMsg := m }
  | .setPdfBusy b => { s with pdfBusy := b }
  | .setPdfMsg m => { s with pdfMsg := m }
  | _ => s

/-- State after the setter calls of a run have been applied to `s`. -/
def settle {α : Type} (s : AppState) (c : Comp α) : AppState :=
  c.trace.foldl applyAction s

/-! ## `imgBaseName` -/

/-- Character class `[^/.]`. -/
def notSlashDot (c : Char) : Bool := c != '/' && c != '.'

/-- Tail of the pattern after `\.`: `[^/.]+` has taken `k` characters of `rest`
and `$` is tried; on failure the quantifier gives back one character. The result
is the number of characters taken when `$` holds. -/
def backtrack (rest : List Char) : Nat → Option Nat
  | 0 => none
  | k + 1 => if (rest.drop (k + 1)).isEmpty then some (k + 1) else backtrack rest k

/-- Match of `\.[^/.]+$` starting at the head of `cs`: the length of the match. -/
def matchExtAt : List Char → Option Nat
  | [] => none
  | c :: rest =>
    if c == '.' then
      (backtrack rest (rest.takeWhile notSlashDot).length).map (· + 1)
    else none

/-- Call `name.replace(/\.[^/.]+$/, "")` on the characters of `name`: the first
start position (from the left) at which the pattern matches has its match
removed. -/
def replaceExt : List Char → List Char
  | [] => []
  | c :: cs =>
    match matchExtAt (c :: cs) with
    | some k => (c :: cs).drop k
    | none => c :: replaceExt cs

/-- Memo `imgBaseName`: `"output"` when `imgFile?.name` is falsy, otherwise the
name with the match of the extension pattern removed. -/
def imgBaseName (imgFile : Option FileHandle) : String :=
  match imgFile with
  | none => "output"
  | some f => if f.name = "" then "output" else String.mk (replaceExt f.name.data)

/-! ## `downloadBlob`, `handleConvert`, `handleMerge` -/

/-- Function `downloadBlob(blob, filename)`. The first action records the call. -/
def downloadBlob (env : Env) (blob : Blob) (filename : String) : Comp Unit := do
  emit (.downloadBlob blob filename)
  emit (.createObjectURL blob)
  let href ← ofExcept env.createObjectURL
  emit (.click href filename)
  emit (.setTimeout href 2000)

/-- Function `handleConvert`, as the closure of a render with state `s`. -/
def handleConvert (API : String) (s : AppState) (env : Env) : Comp Unit :=
  match s.imgFile with
  | none => emit (.alert "Pick an image first.")
  | some imgFile => do
    emit (.setImgBusy true)
    emit (.setImgMsg "")
    tryFinally
      (tryCatch
        (do
          let fd : FormData := []
          let fd := fd ++ [("file", .file imgFile)]
          let fd := fd ++ [("out", .text s.outFmt)]
          let fd := fd ++ [("quality", .text (toString s.quality))]
          emit (.fetch (API ++ "/convert-image") "POST" fd)
          let res ← await env.fetch
          if !res.ok then
            let t ← await res.text
            throwJs (newError t)
          let blob ← await res.blob
          let ext := if s.outFmt = "jpeg" then "jpg" else s.outFmt
          downloadBlob env blob (imgBaseName s.imgFile ++ "." ++ ext)
          emit (.setImgMsg "Done. Download started."))
        (fun e => emit (.setImgMsg (jsString e))))
      (emit (.setImgBusy false))

/-- Function `handleMerge`, as the closure of a render with state `s`. -/
def handleMerge (API : String) (s : AppState) (env : Env) : Comp Unit :=
  if s.pdfFiles.length < 2 then emit (.alert "Pick at least 2 PDFs.")
  else do
    emit (.setPdfBusy true)
    emit (.setPdfMsg "")
    tryFinally
      (tryCatch
        (do
          let fd : FormData := []
          let fd := s.pdfFiles.foldl (fun fd f => fd ++ [("files", .file f)]) fd
          emit (.fetch (API ++ "/merge-pdfs") "POST" fd)
          let res ← await env.fetch
          if !res.ok then
            let t ← await res.text
            throwJs (newError t)
          let blob ← await res.blob
          downloadBlob env blob "merged.pdf"
          emit (.setPdfMsg "Merged. Download started."))
        (fun e => emit (.setPdfMsg (jsString e))))
      (emit (.setPdfBusy false))

/-! ## Event handlers of the rendered controls -/

/-- Callback `onDrop` of `DropArea`: `if (disabled) return; onFiles(acceptedFiles)`. -/
def onDrop (disabled : Bool) (onFiles : List FileHandle → AppState → AppState)
    (acceptedFiles : List FileHandle) (s : AppState) : AppState :=
  if disabled then s else onFiles acceptedFiles s

/-- Prop `onFiles` of the image drop area: `setImgFile(files[0] || null); setImgMsg("")`. -/
def imgOnFiles (files : List FileHandle) (s : AppState) : AppState :=
  { s with imgFile := files.head?, imgMsg := "" }

/-- Prop `onFiles` of the PDF drop area: `setPdfFiles(files); setPdfMsg("")`. -/
def pdfOnFiles (files : List FileHandle) (s : AppState) : AppState :=
  { s with pdfFiles := files, pdfMsg := "" }

/-- Files dropped on the image drop area (`disabled={imgBusy}`). -/
def dropImage (files : List FileHandle) (s : AppState) : AppState :=
  onDrop s.imgBusy imgOnFiles files s

/-- Files dropped on the PDF drop area (`disabled={pdfBusy}`). -/
def dropPdfs (files : List FileHandle) (s : AppState) : AppState :=
  onDrop s.pdfBusy pdfOnFiles files s

/-- Method `Array.prototype.filter` with a callback that also receives the index;
`i` is the index of the head of the list. -/
def filterIdx {α : Type} (p : α → Nat → Bool) : List α → Nat → List α
  | [], _ => []
  | a :: as, i => if p a i then a :: filterIdx p as (i + 1) else filterIdx p as (i + 1)

/-- Updater of the remove button: `(prev) => prev.filter((_, i) => i !== idx)`. -/
def removeAt (idx : Nat) (prev : List FileHandle) : List FileHandle :=
  filterIdx (fun _ i => i != idx) prev 0

/-- Handler `onClick` of the remove button of row `idx`. -/
def removeOnClick (idx : Nat) (s : AppState) : AppState :=
  { s with pdfFiles := removeAt idx s.pdfFiles }

/-- Click on the remove button of row `idx` (`disabled={pdfBusy}`). -/
def clickRemove (idx : Nat) (s : AppState) : AppState :=
  if s.pdfBusy then s else removeOnClick idx s

/-- Handler `onClick` of the Clear button: `setPdfFiles([])`. -/
def clearOnClick (s : AppState) : AppState :=
  { s with pdfFiles := [] }

/-- Click on the Clear button (`disabled={pdfBusy || pdfFiles.length === 0}`). -/
def clickClear (s : AppState) : AppState :=
  if s.pdfBusy || s.pdfFiles.length == 0 then s else clearOnClick s

/-- Click on the Convert button (`onClick={handleConvert}`,
`disabled={!imgFile || imgBusy}`): a disabled button runs no handler. -/
def clickConvert (API : String) (s : AppState) (env : Env) : Comp Unit :=
  if s.imgFile.isNone || s.imgBusy then pure () else handleConvert API s env

/-- Click on the Merge button (`onClick={handleMerge}`,
`disabled={pdfFiles.length < 2 || pdfBusy}`): a disabled button runs no handler. -/
def clickMerge (API : String) (s : AppState) (env : Env) : Comp Unit :=
  if decide (s.pdfFiles.length < 2) || s.pdfBusy then pure () else handleMerge API s env

/-- User operation on the staged PDF list. -/
inductive PdfOp
  | stage (files : List FileHandle)
  | remove (idx : Nat)
  | clear

/-- Effect of one user operation on the staged PDF list. -/
def applyPdfOp (s : AppState) : PdfOp → AppState
  | .stage files => dropPdfs files s
  | .remove idx => clickRemove idx s
  | .clear => clickClear s

/-! ## Observations on a trace -/

/-- Body of a `fetch` action. -/
def fetchBody : Action → Option FormData
  | .fetch _ _ body => some body
  | _ => none

/-- Bodies of the requests issued in a trace, in order. -/
def fetchBodies (t : List Action) : List FormData := t.filterMap fetchBody

/-- Number of requests issued in a trace. -/
def fetchCount (t : List Action) : Nat := (fetchBodies t).length

/-- Arguments of a `downloadBlob` call. -/
def downloadCall : Action → Option (Blob × String)
  | .downloadBlob blob filename => some (blob, filename)
  | _ => none

/-- Argument pairs of the `downloadBlob` calls of a trace, in order. -/
def downloadCalls (t : List Action) : List (Blob × String) := t.filterMap downloadCall

/-- Every promise the handler awaits under `env` has settled: the request, and
the body read that follows it (`res.text()` after a non-2xx status,
`res.blob()` after a 2xx status). -/
def Env.settled (env : Env) : Bool :=
  match env.fetch with
  | .pending => false
  | .rejected _ => true
  | .fulfilled r =>
    if r.ok then
      (match r.blob with
       | .pending => false
       | _ => true)
    else
      (match r.text with
       | .pending => false
       | _ => true)

/-! ## Sample values -/

/-- Image file of the conversion scenario. -/
def photo : FileHandle := ⟨"photo.png", 2048, "image/png"⟩

/-- First PDF of the merge scenario. -/
def aPdf : FileHandle := ⟨"a.pdf", 10, "application/pdf"⟩

/-- Second PDF of the merge scenario. -/
def bPdf : FileHandle := ⟨"b.pdf", 20, "application/pdf"⟩

/-- Third PDF of the merge scenario. -/
def cPdf : FileHandle := ⟨"c.pdf", 30, "application/pdf"⟩

/-- State with `photo.png` staged, format `jpg`, quality `80`. -/
def photoStaged : AppState :=
  { AppState.initial with imgFile := some photo, outFmt := "jpg", quality := 80 }

/-- State with `a.pdf` and `c.pdf` staged. -/
def twoPdfs : AppState := { AppState.initial with pdfFiles := [aPdf, cPdf] }

/-- State with `a.pdf`, `b.pdf` and `c.pdf` staged. -/
def threePdfs : AppState := { AppState.initial with pdfFiles := [aPdf, bPdf, cPdf] }

/-- The service answers 200 with three bytes. -/
def env200 : Env := ⟨.fulfilled ⟨200, .pending, .fulfilled [1, 2, 3]⟩, .ok "blob:0"⟩

/-- The service answers 500 with the text `bad format`. -/
def env500 : Env := ⟨.fulfilled ⟨500, .fulfilled "bad format", .pending⟩, .ok "blob:0"⟩

/-- The request has not been answered yet. -/
def envPending : Env := ⟨.pending, .ok "blob:0"⟩

/-- The service answers 200, then `URL.createObjectURL` throws. -/
def envDownloadThrows : Env :=
  ⟨.fulfilled ⟨200, .pending, .fulfilled [1, 2, 3]⟩, .error ⟨"TypeError", "no object URL"⟩⟩

/-- The request is rejected. -/
def envRejected : Env := ⟨.rejected ⟨"TypeError", "Failed to fetch"⟩, .ok "blob:0"⟩

/-- State reached from `threePdfs` by a merge that the service answered with 200. -/
def mergedThree : AppState := settle threePdfs (handleMerge "" threePdfs env200)


/-! ## The extension pattern of `imgBaseName` -/

theorem backtrack_short (rest : List Char) :
    ∀ k, k < rest.length → backtrack rest k = none
  | 0, _ => rfl
  | k + 1, h => by
    have hne : List.drop (k + 1) rest ≠ [] := by
      intro hd
      have := List.drop_eq_nil_iff.mp hd
      omega
    have ih := backtrack_short rest k (by omega)
    simp [backtrack, hne, ih]

theorem backtrack_full (rest : List Char) (h : rest ≠ []) :
    backtrack rest rest.length = some rest.length := by
  cases rest with
  | nil => exact absurd rfl h
  | cons c cs => simp [backtrack]

theorem takeWhile_length_blocked (p : Char → Bool) (a : Char) (ha : p a = false) :
    ∀ (l₁ l₂ : List Char), (List.takeWhile p (l₁ ++ a :: l₂)).length ≤ l₁.length
  | [], l₂ => by simp [List.takeWhile, ha]
  | b :: l₁, l₂ => by
    have ih := takeWhile_length_blocked p a ha l₁ l₂
    cases hb : p b <;> simp [List.takeWhile, hb]
    exact ih

theorem matchExtAt_other (c : Char) (rest : List Char) (hc : c ≠ '.') :
    matchExtAt (c :: rest) = none := by
  simp [matchExtAt, hc]

theorem matchExtAt_blocked (pre e : List Char) :
    matchExtAt ('.' :: (pre ++ '.' :: e)) = none := by
  have hlen := takeWhile_length_blocked notSlashDot '.' (by decide) pre e
  have := backtrack_short (pre ++ '.' :: e) (List.takeWhile notSlashDot (pre ++ '.' :: e)).length
    (by simp; omega)
  simp [matchExtAt, this]

theorem matchExtAt_ext (e : List Char) (hne : e ≠ []) (hall : ∀ x ∈ e, notSlashDot x = true) :
    matchExtAt ('.' :: e) = some (e.length + 1) := by
  have htw : List.takeWhile notSlashDot e = e := List.takeWhile_eq_self_iff.mpr hall
  simp [matchExtAt, htw, backtrack_full e hne]

theorem replaceExt_strip (e : List Char) (hne : e ≠ []) (hall : ∀ x ∈ e, notSlashDot x = true) :
    ∀ pre : List Char, replaceExt (pre ++ '.' :: e) = pre
  | [] => by
    simp [replaceExt, matchExtAt_ext e hne hall]
  | c :: pre => by
    have ih := replaceExt_strip e hne hall pre
    by_cases hc : c = '.'
    · subst hc
      simp [replaceExt, matchExtAt_blocked pre e, ih]
    · simp [replaceExt, matchExtAt_other c _ hc, ih]

theorem replaceExt_no_dot : ∀ cs : List Char, '.' ∉ cs → replaceExt cs = cs
  | [], _ => rfl
  | c :: cs, h => by
    have hc : c ≠ '.' := fun hc => h (by simp [hc])
    have ih := replaceExt_no_dot cs (fun hm => h (List.mem_cons_of_mem _ hm))
    simp [replaceExt, matchExtAt_other c _ hc, ih]

theorem notSlashDot_of_not_mem (e : List Char) (hd : '.' ∉ e) (hs : '/' ∉ e) :
    ∀ x ∈ e, notSlashDot x = true := by
  intro x hx
  have h1 : x ≠ '/' := fun h => hs (h ▸ hx)
  have h2 : x ≠ '.' := fun h => hd (h ▸ hx)
  simp [notSlashDot, h1, h2]

/-- Claim C2. The memo `imgBaseName` is the staged name without its final
extension segment: a name `base ++ "." ++ e` with `e` non-empty and free of `.`
and `/` gives `base`; a non-empty name without any `.` is returned unchanged;
with no staged file, or a file whose name is empty, the value is `"output"`. -/
theorem imgBaseName_spec :
    (∀ (f : FileHandle) (base e : String), f.name = base ++ "." ++ e → e ≠ "" →
        '.' ∉ e.data → '/' ∉ e.data → imgBaseName (some f) = base) ∧
    (∀ f : FileHandle, f.name ≠ "" → '.' ∉ f.name.data → imgBaseName (some f) = f.name) ∧
    imgBaseName none = "output" ∧
    (∀ f : FileHandle, f.name = "" → imgBaseName (some f) = "output") := by
  refine ⟨?_, ?_, rfl, ?_⟩
  · intro f base e hname he hd hs
    have hdata : f.name.data = base.data ++ '.' :: e.data := by
      rw [hname]; simp [String.data_append]
    have hne : f.name ≠ "" := by
      intro h
      rw [h] at hdata
      simp at hdata
    have he' : e.data ≠ [] := fun h => he (String.ext h)
    simp only [imgBaseName, hne, if_false, hdata]
    rw [replaceExt_strip e.data he' (notSlashDot_of_not_mem _ hd hs)]
  · intro f hne hd
    simp only [imgBaseName, hne, if_false]
    rw [replaceExt_no_dot _ hd]
  · intro f h
    simp [imgBaseName, h]

/-- Witness for C2: `photo.png`, a name without a dot, and an empty name. -/
theorem imgBaseName_spec_witness :
    imgBaseName (some photo) = "photo" ∧
    imgBaseName (some ⟨"README", 1, ""⟩) = "README" ∧
    imgBaseName (some ⟨"", 0, ""⟩) = "output" :=
  ⟨imgBaseName_spec.1 photo "photo" "png" (by decide) (by decide) (by decide) (by decide),
   imgBaseName_spec.2.1 ⟨"README", 1, ""⟩ (by decide) (by decide),
   imgBaseName_spec.2.2.2 ⟨"", 0, ""⟩ rfl⟩

/-! ## Lemmas on runs -/

@[simp] theorem bind_eq {α β : Type} (c : Comp α) (f : α → Comp β) :
    c >>= f = Comp.bind c f := rfl

@[simp] theorem pure_eq {α : Type} (a : α) : (pure a : Comp α) = ⟨[], .done a⟩ := rfl

/-! ## Submission preconditions -/

/-- Claim C3. A submit with unmet preconditions issues no request: `handleConvert`
with no staged image and `handleMerge` with fewer than two staged PDFs perform
the alert and nothing else, complete normally, issue zero requests and leave the
whole state (busy flags, messages, staged files) as it was. -/
theorem submit_unmet_preconditions (API : String) (s : AppState) (env : Env) :
    (s.imgFile = none →
      (handleConvert API s env).trace = [.alert "Pick an image first."] ∧
      (handleConvert API s env).result = .done () ∧
      fetchCount (handleConvert API s env).trace = 0 ∧
      settle s (handleConvert API s env) = s) ∧
    (s.pdfFiles.length < 2 →
      (handleMerge API s env).trace = [.alert "Pick at least 2 PDFs."] ∧
      (handleMerge API s env).result = .done () ∧
      fetchCount (handleMerge API s env).trace = 0 ∧
      settle s (handleMerge API s env) = s) := by
  constructor
  · intro h
    simp [handleConvert, h, emit, fetchCount, fetchBodies, fetchBody, settle, applyAction]
  · intro h
    simp [handleMerge, h, emit, fetchCount, fetchBodies, fetchBody, settle, applyAction]

/-- Witness for C3: the initial state has no image and no PDFs staged. -/
theorem submit_unmet_preconditions_witness :
    ((handleConvert "" AppState.initial env200).trace = [.alert "Pick an image first."] ∧
      (handleConvert "" AppState.initial env200).result = .done () ∧
      fetchCount (handleConvert "" AppState.initial env200).trace = 0 ∧
      settle AppState.initial (handleConvert "" AppState.initial env200) = AppState.initial) ∧
    ((handleMerge "" AppState.initial env200).trace = [.alert "Pick at least 2 PDFs."] ∧
      (handleMerge "" AppState.initial env200).result = .done () ∧
      fetchCount (handleMerge "" AppState.initial env200).trace = 0 ∧
      settle AppState.initial (handleMerge "" AppState.initial env200) = AppState.initial) :=
  ⟨(submit_unmet_preconditions "" AppState.initial env200).1 rfl,
   (submit_unmet_preconditions "" AppState.initial env200).2 (by decide)⟩

/-! ## Download filename -/

/-- Claim C1. A successful image conversion (a staged file, a 2xx response whose
blob is read) calls `downloadBlob` exactly once, with the filename
`imgBaseName ++ "." ++ ext` where `ext` is the selected format except that
`jpeg` gives `jpg`; for the formats jpg, png, webp, bmp and tiff the extension is
the format itself; with `photo.png` staged and format `jpg` the filename is
`photo.jpg`. -/
theorem convert_download_filename (API : String) (s : AppState) (env : Env)
    (f : FileHandle) (r : Response) (b : Blob)
    (hf : s.imgFile = some f) (hfetch : env.fetch = .fulfilled r)
    (hok : r.ok = true) (hblob : r.blob = .fulfilled b) :
    downloadCalls (handleConvert API s env).trace =
      [(b, imgBaseName s.imgFile ++ "." ++ (if s.outFmt = "jpeg" then "jpg" else s.outFmt))] ∧
    (s.outFmt ∈ ["jpg", "png", "webp", "bmp", "tiff"] →
      downloadCalls (handleConvert API s env).trace =
        [(b, imgBaseName s.imgFile ++ "." ++ s.outFmt)]) ∧
    (f.name = "photo.png" → s.outFmt = "jpg" →
      downloadCalls (handleConvert API s env).trace = [(b, "photo.jpg")]) := by
  have main : downloadCalls (handleConvert API s env).trace =
      [(b, imgBaseName s.imgFile ++ "." ++
        (if s.outFmt = "jpeg" then "jpg" else s.outFmt))] := by
    rcases env with ⟨fe, u⟩
    simp only at hfetch
    subst hfetch
    cases u <;>
      simp [handleConvert, hf, Comp.bind, emit, await, tryCatch, tryFinally, hok, hblob,
        throwJs, downloadBlob, ofExcept, downloadCalls, downloadCall]
  refine ⟨main, ?_, ?_⟩
  · intro hmem
    have hne : s.outFmt ≠ "jpeg" := by
      intro h
      rw [h] at hmem
      revert hmem
      decide
    rw [main, if_neg hne]
  · intro hname hfmt
    rw [main, hf, hfmt]
    have : imgBaseName (some f) = "photo" := by
      simp only [imgBaseName, hname]
      decide
    have hcat : ("photo" ++ "." ++ (if ("jpg" : String) = "jpeg" then "jpg" else "jpg")) =
        "photo.jpg" := by decide
    rw [this, hcat]

/-- Witness for C1 (scenario A): `photo.png`, format `jpg`, quality `80`, answer 200. -/
theorem convert_download_filename_witness :
    downloadCalls (handleConvert "" photoStaged env200).trace = [([1, 2, 3], "photo.jpg")] :=
  (convert_download_filename "" photoStaged env200 photo ⟨200, .pending, .fulfilled [1, 2, 3]⟩
    [1, 2, 3] rfl rfl (by decide) rfl).2.2 rfl rfl


/-! ## Removal from the staged PDF list -/

theorem filterIdx_ne (idx : Nat) : ∀ (l : List FileHandle) (k : Nat),
    filterIdx (fun _ i => i != idx) l k =
      if k ≤ idx then l.take (idx - k) ++ l.drop (idx - k + 1) else l
  | [], k => by simp [filterIdx]
  | a :: as, k => by
    have ih := filterIdx_ne idx as (k + 1)
    rcases Nat.lt_trichotomy k idx with hlt | heq | hgt
    · have hk : k ≠ idx := by omega
      have h1 : k + 1 ≤ idx := hlt
      have h2 : idx - k = (idx - (k + 1)) + 1 := by omega
      simp only [filterIdx, ih, h1, if_true]
      rw [if_pos (by simpa using hk), if_pos (by omega), h2]
      simp
    · subst heq
      simp [filterIdx, ih]
    · have hk : k ≠ idx := by omega
      have h1 : ¬ k + 1 ≤ idx := by omega
      have h2 : ¬ k ≤ idx := by omega
      simp only [filterIdx, ih, h1, h2, if_false]
      rw [if_pos (by simpa using hk)]

theorem removeAt_eq (idx : Nat) (prev : List FileHandle) :
    removeAt idx prev = prev.take idx ++ prev.drop (idx + 1) := by
  simp [removeAt, filterIdx_ne]

/-- Claim C6. Removing index `idx` from a staged list: when `idx` is in range the
result is one shorter and consists of the elements before position `idx`
followed by those after it; when `idx` is out of range the list is returned
unchanged (the updater is a total function, no error case exists). -/
theorem removeAt_spec (prev : List FileHandle) (idx : Nat) :
    (idx < prev.length →
      (removeAt idx prev).length = prev.length - 1 ∧
      removeAt idx prev = prev.take idx ++ prev.drop (idx + 1)) ∧
    (prev.length ≤ idx → removeAt idx prev = prev) := by
  constructor
  · intro h
    refine ⟨?_, removeAt_eq idx prev⟩
    rw [removeAt_eq]
    simp
    omega
  · intro h
    rw [removeAt_eq, List.take_of_length_le h, List.drop_eq_nil_iff.mpr (by omega)]
    simp

/-- Witness for C6: index 1 of three files, and index 5 of three files. -/
theorem removeAt_spec_witness :
    ((removeAt 1 [aPdf, bPdf, cPdf]).length = 3 - 1 ∧
      removeAt 1 [aPdf, bPdf, cPdf] = [aPdf, bPdf, cPdf].take 1 ++ [aPdf, bPdf, cPdf].drop 2) ∧
    removeAt 5 [aPdf, bPdf, cPdf] = [aPdf, bPdf, cPdf] :=
  ⟨(removeAt_spec [aPdf, bPdf, cPdf] 1).1 (by decide),
   (removeAt_spec [aPdf, bPdf, cPdf] 5).2 (by decide)⟩

/-! ## The merge request -/

theorem foldl_append_files : ∀ (l : List FileHandle) (init : FormData),
    l.foldl (fun fd f => fd ++ [("files", FormValue.file f)]) init =
      init ++ l.map (fun f => ("files", FormValue.file f))
  | [], init => by simp
  | a :: l, init => by
    simp [List.foldl, foldl_append_files l]

theorem merge_fetchBodies (API : String) (s : AppState) (env : Env)
    (h : 2 ≤ s.pdfFiles.length) :
    fetchBodies (handleMerge API s env).trace =
      [s.pdfFiles.map (fun f => ("files", FormValue.file f))] := by
  have hlt : ¬ s.pdfFiles.length < 2 := by omega
  rcases env with ⟨fe, u⟩
  cases fe with
  | pending =>
    simp [handleMerge, hlt, Comp.bind, emit, await, tryCatch, tryFinally, fetchBodies,
      fetchBody, foldl_append_files]
  | rejected e =>
    simp [handleMerge, hlt, Comp.bind, emit, await, tryCatch, tryFinally, fetchBodies,
      fetchBody, foldl_append_files]
  | fulfilled r =>
    rcases r with ⟨st, tx, bl⟩
    cases hok : (Response.ok ⟨st, tx, bl⟩) <;> cases tx <;> cases bl <;> cases u <;>
      simp [handleMerge, hlt, Comp.bind, emit, await, tryCatch, tryFinally, hok, throwJs,
        downloadBlob, ofExcept, fetchBodies, fetchBody, foldl_append_files]

/-- Claim C5. For every accepted merge submission (at least two staged PDFs) the
request body consists of exactly one `files` field per staged file, in the
staged order, whatever sequence of stagings, removals and clears produced the
staged list; staging `[a, b, c]`, removing index 1 and submitting sends
`[a, c]`. -/
theorem merge_request_order (API : String) (s : AppState) (ops : List PdfOp) (env : Env) :
    (2 ≤ (ops.foldl applyPdfOp s).pdfFiles.length →
      fetchBodies (handleMerge API (ops.foldl applyPdfOp s) env).trace =
        [(ops.foldl applyPdfOp s).pdfFiles.map (fun f => ("files", FormValue.file f))]) ∧
    (s.pdfBusy = false → ∀ a b c : FileHandle,
      fetchBodies (handleMerge API
          ([PdfOp.stage [a, b, c], PdfOp.remove 1].foldl applyPdfOp s) env).trace =
        [[("files", FormValue.file a), ("files", FormValue.file c)]]) := by
  constructor
  · intro h
    exact merge_fetchBodies API _ env h
  · intro hb a b c
    have hfiles : ([PdfOp.stage [a, b, c], PdfOp.remove 1].foldl applyPdfOp s).pdfFiles =
        [a, c] := by
      simp [applyPdfOp, dropPdfs, onDrop, pdfOnFiles, clickRemove, removeOnClick, hb,
        removeAt_eq]
    rw [merge_fetchBodies API _ env (by rw [hfiles]; simp), hfiles]
    rfl

/-- Witness for C5 (scenario C): from the initial state stage `a.pdf`, `b.pdf`,
`c.pdf`, remove row 1, submit. -/
theorem merge_request_order_witness :
    fetchBodies (handleMerge ""
        ([PdfOp.stage [aPdf, bPdf, cPdf], PdfOp.remove 1].foldl applyPdfOp AppState.initial)
        env200).trace =
      [[("files", FormValue.file aPdf), ("files", FormValue.file cPdf)]] :=
  (merge_request_order "" AppState.initial [PdfOp.stage [aPdf, bPdf, cPdf], PdfOp.remove 1]
    env200).1 (by decide)


/-! ## Messages and staging changes -/

theorem staging_clears_message (files : List FileHandle) (s : AppState) :
    (s.imgBusy = false → (dropImage files s).imgMsg = "") ∧
    (s.pdfBusy = false → (dropPdfs files s).pdfMsg = "") := by
  constructor <;> intro h <;> simp [dropImage, dropPdfs, onDrop, imgOnFiles, pdfOnFiles, h]

/-- Claim C7, evaluated where the code departs from it. After a merge answered
with 200 the PDF message is `Merged. Download started.`; a click on the remove
button of row 1 leaves `[a.pdf, c.pdf]` staged and a click on Clear leaves
nothing staged, and in both cases the message is still there, while dropping
files on the PDF drop area in the same state empties it. -/
theorem remove_and_clear_keep_message :
    mergedThree.pdfBusy = false ∧
    mergedThree.pdfMsg = "Merged. Download started." ∧
    (clickRemove 1 mergedThree).pdfFiles = [aPdf, cPdf] ∧
    (clickRemove 1 mergedThree).pdfMsg = "Merged. Download started." ∧
    (clickClear mergedThree).pdfFiles = [] ∧
    (clickClear mergedThree).pdfMsg = "Merged. Download started." ∧
    (dropPdfs [aPdf, cPdf] mergedThree).pdfMsg = "" := by
  decide

/-! ## Submitting while busy -/

/-- Counterexample to C4 as stated. With `photo.png` staged, `handleConvert` is
called and its request stays unanswered: the busy flag is now true. Calling
`handleConvert` again in that state issues a second request. The same holds for
`handleMerge` with two PDFs staged. -/
theorem handler_while_busy_issues_request :
    (settle photoStaged (handleConvert "" photoStaged envPending)).imgBusy = true ∧
    fetchCount (handleConvert "" photoStaged envPending).trace = 1 ∧
    fetchCount (handleConvert ""
      (settle photoStaged (handleConvert "" photoStaged envPending)) envPending).trace = 1 ∧
    (settle twoPdfs (handleMerge "" twoPdfs envPending)).pdfBusy = true ∧
    fetchCount (handleMerge "" twoPdfs envPending).trace = 1 ∧
    fetchCount (handleMerge ""
      (settle twoPdfs (handleMerge "" twoPdfs envPending)) envPending).trace = 1 := by
  decide

/-- Claim C4 as amended. While a workflow is busy a click on its submit button
runs nothing: no action, no request, no state change. A click that is accepted
issues one request and, while that request is unanswered, leaves the workflow
busy, so a second click then runs nothing and the two clicks together issue
exactly one request. -/
theorem click_while_busy_noop (API : String) (s : AppState) (env env2 : Env) :
    (s.imgBusy = true →
      clickConvert API s env = ⟨[], .done ()⟩ ∧ settle s (clickConvert API s env) = s) ∧
    (s.pdfBusy = true →
      clickMerge API s env = ⟨[], .done ()⟩ ∧ settle s (clickMerge API s env) = s) ∧
    (s.imgFile ≠ none → s.imgBusy = false → env.fetch = .pending →
      (settle s (clickConvert API s env)).imgBusy = true ∧
      fetchCount ((clickConvert API s env).trace ++
        (clickConvert API (settle s (clickConvert API s env)) env2).trace) = 1) ∧
    (2 ≤ s.pdfFiles.length → s.pdfBusy = false → env.fetch = .pending →
      (settle s (clickMerge API s env)).pdfBusy = true ∧
      fetchCount ((clickMerge API s env).trace ++
        (clickMerge API (settle s (clickMerge API s env)) env2).trace) = 1) := by
  refine ⟨?_, ?_, ?_, ?_⟩
  · intro h
    simp [clickConvert, h, settle]
  · intro h
    simp [clickMerge, h, settle]
  · intro hf hb hp
    rcases env with ⟨fe, u⟩
    simp only at hp
    subst hp
    cases hfile : s.imgFile with
    | none => exact absurd hfile hf
    | some f =>
      simp [clickConvert, handleConvert, hfile, hb, Comp.bind, emit, await, tryCatch,
        tryFinally, settle, applyAction, fetchCount, fetchBodies, fetchBody]
  · intro hl hb hp
    have hlt : ¬ s.pdfFiles.length < 2 := by omega
    rcases env with ⟨fe, u⟩
    simp only at hp
    subst hp
    simp [clickMerge, handleMerge, hlt, hb, Comp.bind, emit, await, tryCatch,
      tryFinally, settle, applyAction, fetchCount, fetchBodies, fetchBody]

/-- Witness for C4 as amended: a busy state, and two clicks in a row from the
states with `photo.png` and with two PDFs staged. -/
theorem click_while_busy_noop_witness :
    (clickConvert "" { photoStaged with imgBusy := true } env200 = ⟨[], .done ()⟩ ∧
      settle { photoStaged with imgBusy := true }
        (clickConvert "" { photoStaged with imgBusy := true } env200) =
        { photoStaged with imgBusy := true }) ∧
    (clickMerge "" { twoPdfs with pdfBusy := true } env200 = ⟨[], .done ()⟩ ∧
      settle { twoPdfs with pdfBusy := true }
        (clickMerge "" { twoPdfs with pdfBusy := true } env200) =
        { twoPdfs with pdfBusy := true }) ∧
    ((settle photoStaged (clickConvert "" photoStaged envPending)).imgBusy = true ∧
      fetchCount ((clickConvert "" photoStaged envPending).trace ++
        (clickConvert "" (settle photoStaged (clickConvert "" photoStaged envPending))
          env200).trace) = 1) ∧
    ((settle twoPdfs (clickMerge "" twoPdfs envPending)).pdfBusy = true ∧
      fetchCount ((clickMerge "" twoPdfs envPending).trace ++
        (clickMerge "" (settle twoPdfs (clickMerge "" twoPdfs envPending)) env200).trace) = 1) :=
  ⟨(click_while_busy_noop "" { photoStaged with imgBusy := true } env200 env200).1 rfl,
   (click_while_busy_noop "" { twoPdfs with pdfBusy := true } env200 env200).2.1 rfl,
   (click_while_busy_noop "" photoStaged envPending env200).2.2.1 (by decide) rfl rfl,
   (click_while_busy_noop "" twoPdfs envPending env200).2.2.2 (by decide) rfl rfl⟩


/-! ## Failure responses -/

theorem jsString_newError (t : String) :
    jsString (newError t) = if t = "" then "Error" else "Error: " ++ t := by
  have h1 : ("Error" : String) ≠ "" := by decide
  have h2 : ("Error" : String) ++ ": " = "Error: " := by decide
  by_cases ht : t = ""
  · simp [jsString, newError, ht]
  · simp only [jsString, newError, h1, ht, if_false]
    rw [h2]

theorem infix_jsString_newError (t : String) : t.data <:+: (jsString (newError t)).data := by
  rw [jsString_newError]
  by_cases ht : t = ""
  · subst ht
    exact ⟨"Error".data, [], by simp⟩
  · rw [if_neg ht]
    exact ⟨"Error: ".data, [], by simp [String.data_append]⟩

theorem convert_failure_run (API : String) (s : AppState) (env : Env) (f : FileHandle)
    (r : Response) (t : String) (hf : s.imgFile = some f) (hfetch : env.fetch = .fulfilled r)
    (hok : r.ok = false) (htext : r.text = .fulfilled t) :
    handleConvert API s env =
      ⟨[.setImgBusy true, .setImgMsg "",
        .fetch (API ++ "/convert-image") "POST"
          [("file", .file f), ("out", .text s.outFmt), ("quality", .text (toString s.quality))],
        .setImgMsg (jsString (newError t)), .setImgBusy false], .done ()⟩ := by
  rcases env with ⟨fe, u⟩
  simp only at hfetch
  subst hfetch
  simp [handleConvert, hf, Comp.bind, emit, await, tryCatch, tryFinally, hok, htext, throwJs]

theorem merge_failure_run (API : String) (s : AppState) (env : Env)
    (r : Response) (t : String) (hl : 2 ≤ s.pdfFiles.length) (hfetch : env.fetch = .fulfilled r)
    (hok : r.ok = false) (htext : r.text = .fulfilled t) :
    handleMerge API s env =
      ⟨[.setPdfBusy true, .setPdfMsg "",
        .fetch (API ++ "/merge-pdfs") "POST"
          (s.pdfFiles.map (fun f => ("files", FormValue.file f))),
        .setPdfMsg (jsString (newError t)), .setPdfBusy false], .done ()⟩ := by
  have hlt : ¬ s.pdfFiles.length < 2 := by omega
  rcases env with ⟨fe, u⟩
  simp only at hfetch
  subst hfetch
  simp [handleMerge, hlt, Comp.bind, emit, await, tryCatch, tryFinally, hok, htext, throwJs,
    foldl_append_files]

/-- Claim C8. For every accepted submission of either workflow that the service
answers with a non-2xx status and body text `t`, the handler completes, the
workflow is no longer busy, its message contains `t` as a contiguous substring,
and `downloadBlob` is not called. -/
theorem failure_response_outcome (API : String) (s : AppState) (env : Env) (r : Response)
    (t : String) (hfetch : env.fetch = .fulfilled r) (hok : r.ok = false)
    (htext : r.text = .fulfilled t) :
    (s.imgFile ≠ none →
      (handleConvert API s env).result = .done () ∧
      (settle s (handleConvert API s env)).imgBusy = false ∧
      t.data <:+: (settle s (handleConvert API s env)).imgMsg.data ∧
      downloadCalls (handleConvert API s env).trace = []) ∧
    (2 ≤ s.pdfFiles.length →
      (handleMerge API s env).result = .done () ∧
      (settle s (handleMerge API s env)).pdfBusy = false ∧
      t.data <:+: (settle s (handleMerge API s env)).pdfMsg.data ∧
      downloadCalls (handleMerge API s env).trace = []) := by
  constructor
  · intro hne
    cases hfile : s.imgFile with
    | none => exact absurd hfile hne
    | some f =>
      rw [convert_failure_run API s env f r t hfile hfetch hok htext]
      refine ⟨rfl, rfl, ?_, rfl⟩
      simpa [settle, applyAction] using infix_jsString_newError t
  · intro hl
    rw [merge_failure_run API s env r t hl hfetch hok htext]
    refine ⟨rfl, rfl, ?_, rfl⟩
    simpa [settle, applyAction] using infix_jsString_newError t

/-- Witness for C8 (scenario D): image conversion answered with 500 and the body
`bad format`. -/
theorem failure_response_outcome_witness :
    (handleConvert "" photoStaged env500).result = .done () ∧
    (settle photoStaged (handleConvert "" photoStaged env500)).imgBusy = false ∧
    "bad format".data <:+: (settle photoStaged (handleConvert "" photoStaged env500)).imgMsg.data ∧
    downloadCalls (handleConvert "" photoStaged env500).trace = [] :=
  (failure_response_outcome "" photoStaged env500 ⟨500, .fulfilled "bad format", .pending⟩
    "bad format" rfl (by decide) rfl).1 (by decide)

/-- Counterexample to C9 as stated. Image conversion answered with 500 and the
body `bad format` records the message `Error: bad format`, which is not the body
text; the same answer to a merge records the same message. -/
theorem failure_message_not_verbatim :
    (settle photoStaged (handleConvert "" photoStaged env500)).imgMsg = "Error: bad format" ∧
    (settle photoStaged (handleConvert "" photoStaged env500)).imgMsg ≠ "bad format" ∧
    (settle twoPdfs (handleMerge "" twoPdfs env500)).pdfMsg = "Error: bad format" ∧
    (settle twoPdfs (handleMerge "" twoPdfs env500)).pdfMsg ≠ "bad format" := by
  decide

/-- Claim C9 as amended. For every non-2xx response with body text `t` the
message recorded by `handleConvert` / `handleMerge` is `String(new Error(t))`:
`Error: ` followed by `t` when `t` is not empty, and `Error` when it is. -/
theorem failure_message_is_error_string (API : String) (s : AppState) (env : Env)
    (r : Response) (t : String) (hfetch : env.fetch = .fulfilled r) (hok : r.ok = false)
    (htext : r.text = .fulfilled t) :
    (s.imgFile ≠ none →
      (settle s (handleConvert API s env)).imgMsg =
        if t = "" then "Error" else "Error: " ++ t) ∧
    (2 ≤ s.pdfFiles.length →
      (settle s (handleMerge API s env)).pdfMsg =
        if t = "" then "Error" else "Error: " ++ t) := by
  constructor
  · intro hne
    cases hfile : s.imgFile with
    | none => exact absurd hfile hne
    | some f =>
      rw [convert_failure_run API s env f r t hfile hfetch hok htext, ← jsString_newError]
      rfl
  · intro hl
    rw [merge_failure_run API s env r t hl hfetch hok htext, ← jsString_newError]
    rfl

/-- Witness for C9 as amended: both workflows answered with 500 and `bad format`. -/
theorem failure_message_is_error_string_witness :
    (settle photoStaged (handleConvert "" photoStaged env500)).imgMsg =
      (if ("bad format" : String) = "" then "Error" else "Error: " ++ "bad format") ∧
    (settle twoPdfs (handleMerge "" twoPdfs env500)).pdfMsg =
      (if ("bad format" : String) = "" then "Error" else "Error: " ++ "bad format") :=
  ⟨(failure_message_is_error_string "" photoStaged env500
      ⟨500, .fulfilled "bad format", .pending⟩ "bad format" rfl (by decide) rfl).1 (by decide),
   (failure_message_is_error_string "" twoPdfs env500
      ⟨500, .fulfilled "bad format", .pending⟩ "bad format" rfl (by decide) rfl).2 (by decide)⟩

/-! ## Busy flag and exceptions -/

theorem convert_busy_once (API : String) (s : AppState) (env : Env) (f : FileHandle)
    (hfile : s.imgFile = some f) (hs : env.settled = true) :
    (handleConvert API s env).result = .done () ∧
    (handleConvert API s env).trace.head? = some (.setImgBusy true) ∧
    (handleConvert API s env).trace.getLast? = some (.setImgBusy false) ∧
    (handleConvert API s env).trace.count (.setImgBusy true) = 1 ∧
    (handleConvert API s env).trace.count (.setImgBusy false) = 1 ∧
    (settle s (handleConvert API s env)).imgBusy = false := by
  rcases env with ⟨fe, u⟩
  cases fe with
  | pending => simp [Env.settled] at hs
  | rejected e =>
    simp [handleConvert, hfile, Comp.bind, emit, await, tryCatch, tryFinally, settle,
      applyAction]
  | fulfilled r =>
    rcases r with ⟨st, tx, bl⟩
    cases hok : (Response.ok ⟨st, tx, bl⟩) <;> cases tx <;> cases bl <;> cases u <;>
      simp [Env.settled, hok] at hs <;>
      simp [handleConvert, hfile, Comp.bind, emit, await, tryCatch, tryFinally, hok,
        throwJs, downloadBlob, ofExcept, settle, applyAction]

theorem merge_busy_once (API : String) (s : AppState) (env : Env)
    (hl : 2 ≤ s.pdfFiles.length) (hs : env.settled = true) :
    (handleMerge API s env).result = .done () ∧
    (handleMerge API s env).trace.head? = some (.setPdfBusy true) ∧
    (handleMerge API s env).trace.getLast? = some (.setPdfBusy false) ∧
    (handleMerge API s env).trace.count (.setPdfBusy true) = 1 ∧
    (handleMerge API s env).trace.count (.setPdfBusy false) = 1 ∧
    (settle s (handleMerge API s env)).pdfBusy = false := by
  have hlt : ¬ s.pdfFiles.length < 2 := by omega
  simp only [handleMerge, hlt, if_false]
  generalize (List.foldl (fun fd f => fd ++ [("files", FormValue.file f)]) [] s.pdfFiles) = body
  rcases env with ⟨fe, u⟩
  cases fe with
  | pending => simp [Env.settled] at hs
  | rejected e =>
    simp [Comp.bind, emit, await, tryCatch, tryFinally, settle, applyAction]
  | fulfilled r =>
    rcases r with ⟨st, tx, bl⟩
    cases hok : (Response.ok ⟨st, tx, bl⟩) <;> cases tx <;> cases bl <;> cases u <;>
      simp [Env.settled, hok] at hs <;>
      simp [Comp.bind, emit, await, tryCatch, tryFinally, hok, throwJs, downloadBlob,
        ofExcept, settle, applyAction]

/-- Claim C10. For every accepted submission of either workflow and every settled
outcome (a 2xx response, a non-2xx response, a rejected request, a rejected body
read, a throwing download step) the handler completes normally, so nothing
propagates out of it; its first action sets the busy flag to true, its last
action sets it to false, each of the two happens exactly once, and the workflow
ends not busy. -/
theorem busy_flag_set_and_cleared_once (API : String) (s : AppState) (env : Env)
    (hs : env.settled = true) :
    (s.imgFile ≠ none →
      (handleConvert API s env).result = .done () ∧
      (handleConvert API s env).trace.head? = some (.setImgBusy true) ∧
      (handleConvert API s env).trace.getLast? = some (.setImgBusy false) ∧
      (handleConvert API s env).trace.count (.setImgBusy true) = 1 ∧
      (handleConvert API s env).trace.count (.setImgBusy false) = 1 ∧
      (settle s (handleConvert API s env)).imgBusy = false) ∧
    (2 ≤ s.pdfFiles.length →
      (handleMerge API s env).result = .done () ∧
      (handleMerge API s env).trace.head? = some (.setPdfBusy true) ∧
      (handleMerge API s env).trace.getLast? = some (.setPdfBusy false) ∧
      (handleMerge API s env).trace.count (.setPdfBusy true) = 1 ∧
      (handleMerge API s env).trace.count (.setPdfBusy false) = 1 ∧
      (settle s (handleMerge API s env)).pdfBusy = false) := by
  constructor
  · intro hne
    cases hfile : s.imgFile with
    | none => exact absurd hfile hne
    | some f => exact convert_busy_once API s env f hfile hs
  · intro hl
    exact merge_busy_once API s env hl hs

/-- Witness for C10: an image conversion whose download step throws, and a merge
whose request is rejected. -/
theorem busy_flag_set_and_cleared_once_witness :
    ((handleConvert "" photoStaged envDownloadThrows).result = .done () ∧
      (handleConvert "" photoStaged envDownloadThrows).trace.head? = some (.setImgBusy true) ∧
      (handleConvert "" photoStaged envDownloadThrows).trace.getLast? =
        some (.setImgBusy false) ∧
      (handleConvert "" photoStaged envDownloadThrows).trace.count (.setImgBusy true) = 1 ∧
      (handleConvert "" photoStaged envDownloadThrows).trace.count (.setImgBusy false) = 1 ∧
      (settle photoStaged (handleConvert "" photoStaged envDownloadThrows)).imgBusy = false) ∧
    ((handleMerge "" twoPdfs envRejected).result = .done () ∧
      (handleMerge "" twoPdfs envRejected).trace.head? = some (.setPdfBusy true) ∧
      (handleMerge "" twoPdfs envRejected).trace.getLast? = some (.setPdfBusy false) ∧
      (handleMerge "" twoPdfs envRejected).trace.count (.setPdfBusy true) = 1 ∧
      (handleMerge "" twoPdfs envRejected).trace.count (.setPdfBusy false) = 1 ∧
      (settle twoPdfs (handleMerge "" twoPdfs envRejected)).pdfBusy = false) :=
  ⟨(busy_flag_set_and_cleared_once "" photoStaged envDownloadThrows rfl).1 (by decide),
   (busy_flag_set_and_cleared_once "" twoPdfs envRejected rfl).2 (by decide)⟩

end ImageConverter
